import Mathlib

/-
Shallow embedding of the recording/session logic of src/src/App.tsx
(a browser speech-to-text app). External collaborators (the remote
database, the transcription service, browser media APIs) appear as
explicit parameters: the outcome of each remote call is an input, and
browser-held resources (media recorder, stream, timers) are Boolean
fields of an explicit state record.
-/

namespace SpeechToText

/-- Embeds the TranscriptionSession interface of App.tsx (lines 13-19):
id, text, timestamp (an instant, modelled as a Nat tick), language code,
and duration in seconds. -/
structure TranscriptionSession where
  id : String
  text : String
  timestamp : Nat
  language : String
  duration : Nat
deriving Repr, DecidableEq

/-- Key used by App.tsx for the per-user localStorage entry: the template
string in lines 65 and 102 is backtick-transcription_sessions_dollar-brace-user.id-brace. -/
def localStorageKey (userId : String) : String :=
  "transcription_sessions_" ++ userId

/-- Browser localStorage, restricted to what the app stores in it: a map
from string keys to (the parse of) a JSON-serialized session array.
Serialization itself is the browser's JSON and is kept abstract: a key
either holds a session array or is absent. -/
def LocalStore : Type := String → Option (List TranscriptionSession)

/-- Embeds saveSessionsToLocalStorage (App.tsx lines 100-106):
localStorage.setItem with the per-user key and the serialized array. -/
def saveSessionsToLocalStorage (userId : String)
    (sessions : List TranscriptionSession) (store : LocalStore) : LocalStore :=
  fun k => if k = localStorageKey userId then some sessions else store k

/-- Embeds loadSessionsFromLocalStorage (App.tsx lines 63-76):
localStorage.getItem with the per-user key; when the key holds a stored
array the in-memory list is replaced by it, otherwise (or on a parse
error, absorbed into the absent case) the current list is kept. -/
def loadSessionsFromLocalStorage (userId : String) (store : LocalStore)
    (current : List TranscriptionSession) : List TranscriptionSession :=
  match store (localStorageKey userId) with
  | some stored => stored
  | none => current

/-- Outcome of the remote create call blink.db.transcriptionSessions.create:
either it succeeds and returns the database-assigned record id, or it
throws (any failure). -/
inductive RemoteOutcome where
  | success (dbId : String)
  | failure
deriving Repr, DecidableEq

/-- Result of a session-store operation: the new in-memory list, the new
localStorage contents, the new remote-database contents, and the toast
notification shown to the user. -/
structure StoreUpdate where
  sessions : List TranscriptionSession
  store : LocalStore
  remoteStore : List TranscriptionSession
  toastMsg : String

/-- Embeds saveSession (App.tsx lines 115-147). The generated id
(Date.now plus a random suffix) and the current instant are the
parameters newId and now. On remote success the created record (with the
database id) is prepended to the remote store — that is the contract of
blink.db create — and the in-memory list becomes the new session followed
by the first 9 old ones (prev.slice(0, 9)); localStorage is untouched.
On remote failure the same updated list is also written to localStorage
under the per-user key, and a differing success toast is shown. -/
def saveSession (text : String) (duration : Nat) (selectedLanguage : String)
    (newId : String) (now : Nat) (userId : String)
    (sessions : List TranscriptionSession) (store : LocalStore)
    (remoteStore : List TranscriptionSession) (remote : RemoteOutcome) :
    StoreUpdate :=
  let newSession : TranscriptionSession :=
    { id := newId, text := text, timestamp := now,
      language := selectedLanguage, duration := duration }
  match remote with
  | .success dbId =>
      { sessions := { newSession with id := dbId } :: sessions.take 9
        store := store
        remoteStore := { newSession with id := dbId } :: remoteStore
        toastMsg := "Session saved!" }
  | .failure =>
      let updatedSessions := newSession :: sessions.take 9
      { sessions := updatedSessions
        store := saveSessionsToLocalStorage userId updatedSessions store
        remoteStore := remoteStore
        toastMsg := "Session saved locally!" }

/-- Embeds deleteSession (App.tsx lines 323-339). The remote delete call
either succeeds (remoteOk, contract: the record with that id is removed
from the remote database) or throws; on failure the filtered in-memory
list is written to localStorage as the fallback deletion. Either way the
in-memory list is filtered by id. -/
def deleteSession (sessionId : String) (userId : String)
    (sessions : List TranscriptionSession) (store : LocalStore)
    (remoteStore : List TranscriptionSession) (remoteOk : Bool) :
    StoreUpdate :=
  if remoteOk then
    { sessions := sessions.filter (fun s => s.id != sessionId)
      store := store
      remoteStore := remoteStore.filter (fun s => s.id != sessionId)
      toastMsg := "Session deleted!" }
  else
    let updatedSessions := sessions.filter (fun s => s.id != sessionId)
    { sessions := updatedSessions
      store := saveSessionsToLocalStorage userId updatedSessions store
      remoteStore := remoteStore
      toastMsg := "Session deleted locally!" }

/-- State of the recording controller: the React state booleans
isRecording and isPaused, the duration counter and displayed audio level,
and the browser-held resources as booleans — whether mediaRecorderRef is
non-null (recorderActive), whether the MediaRecorder is paused so chunk
buffering is suspended (recorderPaused), whether the 1-second duration
interval is running (tickRunning), whether the animation-frame level loop
is scheduled (levelMonitoring), and whether the stream and AudioContext
are open. -/
structure ControllerState where
  isRecording : Bool
  isPaused : Bool
  recordingDuration : Nat
  audioLevel : ℚ
  recorderActive : Bool
  recorderPaused : Bool
  tickRunning : Bool
  levelMonitoring : Bool
  streamActive : Bool
  audioContextOpen : Bool
deriving Repr, DecidableEq

/-- Embeds startRecording (App.tsx lines 149-203) after the microphone
permission outcome: when granted, the stream and AudioContext open, the
level loop and MediaRecorder start, the state becomes recording/unpaused
with duration reset to 0 and the duration tick running; when denied, the
catch leaves the state unchanged (an error toast is shown). -/
def startRecording (s : ControllerState) (permissionGranted : Bool) :
    ControllerState :=
  if permissionGranted then
    { s with streamActive := true, audioContextOpen := true,
             levelMonitoring := true,
             recorderActive := true, recorderPaused := false,
             isRecording := true, isPaused := false,
             recordingDuration := 0, tickRunning := true }
  else s

/-- Embeds stopRecording (App.tsx lines 205-227): guarded by
mediaRecorderRef.current and isRecording; stops the recorder, clears
isRecording/isPaused, stops the stream tracks, closes the AudioContext,
cancels the level loop, clears the duration interval and zeroes the
displayed audio level. The duration counter itself is not written here. -/
def stopRecording (s : ControllerState) : ControllerState :=
  if s.recorderActive && s.isRecording then
    { s with isRecording := false, isPaused := false,
             streamActive := false, audioContextOpen := false,
             levelMonitoring := false, tickRunning := false,
             audioLevel := 0 }
  else s

/-- Embeds pauseRecording (App.tsx lines 229-247): guarded by
mediaRecorderRef.current and isRecording; toggles between pausing the
MediaRecorder plus clearing the duration interval, and resuming the
MediaRecorder plus restarting the interval. The level loop and audio
level are not touched. -/
def pauseRecording (s : ControllerState) : ControllerState :=
  if s.recorderActive && s.isRecording then
    if s.isPaused then
      { s with recorderPaused := false, isPaused := false,
               tickRunning := true }
    else
      { s with recorderPaused := true, isPaused := true,
               tickRunning := false }
  else s

/-- Embeds one tick of monitorAudioLevel (App.tsx lines 249-259): the
frequency-domain samples are bytes (a Uint8Array), the mean amplitude is
their sum divided by the buffer length, and the displayed level is
min(100, average / 128 * 100). Arithmetic is modelled over the
rationals. -/
def monitorAudioLevel (dataArray : List (Fin 256)) : ℚ :=
  let average : ℚ :=
    ((dataArray.map (fun v => (v.val : ℚ))).sum) / (dataArray.length : ℚ)
  min 100 (average / 128 * 100)

/-- Outcome of processing a finalized recording: the base64 encoding step
and the blink.ai.transcribeAudio call either yield the recognized text,
or the FileReader rejects, or the transcription call throws. Both failure
modes land in the same catch block. -/
inductive TranscribeOutcome where
  | success (text : String)
  | encodingFailure
  | transcriptionFailure
deriving Repr, DecidableEq

/-- State visible to processRecording: the buffered chunks (each chunk an
abstract token for a Blob), the transcribing flag, the displayed
transcription text, the duration and language captured for the save, the
session list and both backing stores, and the log of toast
notifications shown so far. -/
structure ProcState where
  audioChunks : List Nat
  isTranscribing : Bool
  transcriptionText : String
  recordingDuration : Nat
  selectedLanguage : String
  sessions : List TranscriptionSession
  store : LocalStore
  remoteStore : List TranscriptionSession
  toasts : List String

/-- Embeds processRecording (App.tsx lines 261-299). With no buffered
chunks it returns at once. Otherwise the transcribing flag is raised for
the duration of the call (its final value is false via the finally
block, which is what the resulting state records); on success the text is
stored, saveSession runs with the captured duration and language, and the
completion toast follows the save toast; on either failure the catch
shows the error toast and nothing else changes. -/
def processRecording (s : ProcState) (outcome : TranscribeOutcome)
    (saveRemote : RemoteOutcome) (newId : String) (now : Nat)
    (userId : String) : ProcState :=
  if s.audioChunks.isEmpty then s
  else
    match outcome with
    | .success text =>
        let r := saveSession text s.recordingDuration s.selectedLanguage
          newId now userId s.sessions s.store s.remoteStore saveRemote
        { s with transcriptionText := text,
                 sessions := r.sessions, store := r.store,
                 remoteStore := r.remoteStore,
                 toasts := s.toasts ++ [r.toastMsg, "Transcription completed!"],
                 isTranscribing := false }
    | .encodingFailure =>
        { s with
            toasts := s.toasts ++ ["Transcription failed. Please try again."],
            isTranscribing := false }
    | .transcriptionFailure =>
        { s with
            toasts := s.toasts ++ ["Transcription failed. Please try again."],
            isTranscribing := false }

/-- Embeds the String.prototype.padStart call of formatDuration: a string
shorter than the target length is left-padded with copies of the pad
character up to that length, otherwise returned unchanged. -/
def padStart (s : String) (n : Nat) (c : Char) : String :=
  if n ≤ s.length then s
  else String.mk (List.replicate (n - s.length) c) ++ s

/-- Embeds formatDuration (App.tsx lines 341-345): minutes are
floor-division by 60, seconds the remainder, rendered as
minutes-colon-seconds with the seconds padded to 2 characters. -/
def formatDuration (seconds : Nat) : String :=
  let mins := seconds / 60
  let secs := seconds % 60
  Nat.repr mins ++ ":" ++ padStart (Nat.repr secs) 2 '0'

/-- Statement of the spec's wording for C8: the string M colon SS where M
is floor(D/60) in decimal and SS is D mod 60 in decimal, zero-padded to
exactly 2 digits. -/
def formatDurationSpec (seconds : Nat) : String :=
  Nat.repr (seconds / 60) ++ ":" ++
    (if seconds % 60 < 10 then "0" ++ Nat.repr (seconds % 60)
     else Nat.repr (seconds % 60))

/-- Spec predicate for C2: the list is ordered most-recent-first, i.e.
timestamps are non-increasing along the list. -/
def mostRecentFirst (l : List TranscriptionSession) : Prop :=
  l.Pairwise (fun a b => b.timestamp ≤ a.timestamp)

/-- Empty browser localStorage, for concrete evaluations. -/
def emptyStore : LocalStore := fun _ => none

/-- Concrete session record, for concrete evaluations. -/
def sessionExample : TranscriptionSession :=
  { id := "a", text := "hi", timestamp := 0, language := "en", duration := 3 }

/-- Concrete controller state in the Recording, unpaused configuration. -/
def ctrlExample : ControllerState :=
  { isRecording := true, isPaused := false, recordingDuration := 4,
    audioLevel := 12, recorderActive := true, recorderPaused := false,
    tickRunning := true, levelMonitoring := true, streamActive := true,
    audioContextOpen := true }

/-- Concrete recording state with five elapsed seconds, about to stop. -/
def stoppedExample : ControllerState :=
  { isRecording := true, isPaused := false, recordingDuration := 5,
    audioLevel := 7, recorderActive := true, recorderPaused := false,
    tickRunning := true, levelMonitoring := true, streamActive := true,
    audioContextOpen := true }

/-- Concrete processRecording state with no buffered chunks. -/
def procEmptyExample : ProcState :=
  { audioChunks := [], isTranscribing := false, transcriptionText := "old",
    recordingDuration := 0, selectedLanguage := "en", sessions := [],
    store := emptyStore, remoteStore := [], toasts := [] }

/-- Concrete processRecording state with one buffered chunk. -/
def procOneExample : ProcState :=
  { audioChunks := [1], isTranscribing := false, transcriptionText := "old",
    recordingDuration := 7, selectedLanguage := "en", sessions := [],
    store := emptyStore, remoteStore := [], toasts := [] }

/-- Helper: for every seconds value below 60, padStart to width 2 with
the zero character agrees with the if-below-10 spec form and produces a
string of exactly two characters. -/
theorem padStart_repr_lt60 :
    ∀ k : Fin 60,
      padStart (Nat.repr k.val) 2 '0'
          = (if k.val < 10 then "0" ++ Nat.repr k.val else Nat.repr k.val) ∧
        (padStart (Nat.repr k.val) 2 '0').length = 2 := by
  decide

/-- Claim C8: for every D, formatDuration D is the string M colon SS with
M the decimal of D / 60 and SS the decimal of D % 60 zero-padded to
exactly 2 digits; in particular formatDuration 65 is the string 1:05. -/
theorem formatDuration_matches_spec :
    (∀ D : Nat, formatDuration D = formatDurationSpec D ∧
        (padStart (Nat.repr (D % 60)) 2 '0').length = 2) ∧
    formatDuration 65 = "1:05" := by
  constructor
  · intro D
    have hk : D % 60 < 60 := Nat.mod_lt _ (by norm_num)
    have h := padStart_repr_lt60 ⟨D % 60, hk⟩
    refine ⟨?_, h.2⟩
    simp only [formatDuration, formatDurationSpec]
    rw [h.1]
  · rfl

/-- Claim C1: when the remote create fails, saveSession writes the new
record, with the same text, duration and selected language, at the head
of the per-user localStorage entry (which equals the new in-memory
list), and the user sees the local success toast rather than an error. -/
theorem saveSession_fallback_on_remote_failure (text : String)
    (duration : Nat) (lang newId : String) (now : Nat) (userId : String)
    (sessions : List TranscriptionSession) (store : LocalStore)
    (remoteStore : List TranscriptionSession) :
    (saveSession text duration lang newId now userId sessions store
        remoteStore RemoteOutcome.failure).store (localStorageKey userId)
      = some ({ id := newId, text := text, timestamp := now,
                language := lang, duration := duration } :: sessions.take 9) ∧
    (saveSession text duration lang newId now userId sessions store
        remoteStore RemoteOutcome.failure).sessions
      = { id := newId, text := text, timestamp := now, language := lang,
          duration := duration } :: sessions.take 9 ∧
    (saveSession text duration lang newId now userId sessions store
        remoteStore RemoteOutcome.failure).toastMsg
      = "Session saved locally!" := by
  refine ⟨?_, rfl, rfl⟩
  simp [saveSession, saveSessionsToLocalStorage]

/-- Claim C4 (counterexample): the localStorage key is not the string
sessions_ followed by the user id: writing the empty session list for
user u leaves the key sessions_u absent, while the entry appears under
transcription_sessions_u instead. -/
theorem localStorageKey_counterexample :
    saveSessionsToLocalStorage "u" [] emptyStore "sessions_u" = none ∧
    saveSessionsToLocalStorage "u" [] emptyStore "transcription_sessions_u"
      = some [] := by
  constructor
  · decide
  · decide

/-- Claim C4 (amended): every read and write of the local fallback
storage uses the key transcription_sessions_ followed by the user id; a
write stores the session array under exactly that key and leaves every
other key unchanged, and a read under the same key returns the stored
array. -/
theorem localStorage_uses_per_user_key (userId : String)
    (sessions current : List TranscriptionSession) (store : LocalStore)
    (k : String) (hk : k ≠ localStorageKey userId) :
    localStorageKey userId = "transcription_sessions_" ++ userId ∧
    saveSessionsToLocalStorage userId sessions store (localStorageKey userId)
      = some sessions ∧
    saveSessionsToLocalStorage userId sessions store k = store k ∧
    loadSessionsFromLocalStorage userId
      (saveSessionsToLocalStorage userId sessions store) current
      = sessions := by
  refine ⟨rfl, ?_, ?_, ?_⟩
  · simp [saveSessionsToLocalStorage]
  · simp [saveSessionsToLocalStorage, hk]
  · simp [loadSessionsFromLocalStorage, saveSessionsToLocalStorage]

/-- Witness for C4 (amended) at a concrete user, store and foreign key. -/
theorem localStorage_uses_per_user_key_witness :
    ("x" ≠ localStorageKey "u") ∧
    (localStorageKey "u" = "transcription_sessions_" ++ "u" ∧
     saveSessionsToLocalStorage "u" [sessionExample] emptyStore
        (localStorageKey "u") = some [sessionExample] ∧
     saveSessionsToLocalStorage "u" [sessionExample] emptyStore "x"
        = emptyStore "x" ∧
     loadSessionsFromLocalStorage "u"
        (saveSessionsToLocalStorage "u" [sessionExample] emptyStore) []
        = [sessionExample]) :=
  ⟨by decide,
   localStorage_uses_per_user_key "u" [sessionExample] [] emptyStore "x"
     (by decide)⟩

/-- Claim C9: one tick of monitorAudioLevel, on any nonempty buffer of
byte samples, produces a level in the closed interval from 0 to 100. -/
theorem monitorAudioLevel_in_range (dataArray : List (Fin 256))
    (h : dataArray ≠ []) :
    0 ≤ monitorAudioLevel dataArray ∧ monitorAudioLevel dataArray ≤ 100 := by
  constructor
  · have hsum : 0 ≤ (dataArray.map (fun v => (v.val : ℚ))).sum := by
      apply List.sum_nonneg
      intro x hx
      simp only [List.mem_map] at hx
      obtain ⟨v, hv, rfl⟩ := hx
      positivity
    have h1 : 0 ≤ (dataArray.map (fun v => (v.val : ℚ))).sum
        / (dataArray.length : ℚ) :=
      div_nonneg hsum (by positivity)
    have h2 : 0 ≤ (dataArray.map (fun v => (v.val : ℚ))).sum
        / (dataArray.length : ℚ) / 128 * 100 :=
      mul_nonneg (div_nonneg h1 (by norm_num)) (by norm_num)
    simp only [monitorAudioLevel]
    exact le_min (by norm_num) h2
  · simp only [monitorAudioLevel]
    exact min_le_left _ _

/-- Witness for C9 at a concrete one-sample buffer. -/
theorem monitorAudioLevel_in_range_witness :
    ([(0 : Fin 256)] ≠ ([] : List (Fin 256))) ∧
    (0 ≤ monitorAudioLevel [(0 : Fin 256)] ∧
      monitorAudioLevel [(0 : Fin 256)] ≤ 100) :=
  ⟨by decide, monitorAudioLevel_in_range [(0 : Fin 256)] (by decide)⟩

/-- Helper: every member of a list filtered by id-differs-from-sessionId
has an id different from sessionId. -/
theorem mem_filter_id_ne (sessionId : String)
    (l : List TranscriptionSession) :
    ∀ s ∈ l.filter (fun s => s.id != sessionId), s.id ≠ sessionId := by
  intro s hs
  have h2 := (List.mem_filter.mp hs).2
  simpa using h2

/-- Claim C2: after any completed save, on the remote-success path or the
local-fallback path alike, the displayed list has at most 10 sessions and
the new session is at the front; provided the previous list was
most-recent-first with timestamps no later than the new instant, the
resulting list is again most-recent-first. -/
theorem saveSession_list_bounded (text : String) (duration : Nat)
    (lang newId : String) (now : Nat) (userId : String)
    (sessions : List TranscriptionSession) (store : LocalStore)
    (remoteStore : List TranscriptionSession) (remote : RemoteOutcome)
    (hsort : mostRecentFirst sessions)
    (hle : ∀ s ∈ sessions, s.timestamp ≤ now) :
    (saveSession text duration lang newId now userId sessions store
        remoteStore remote).sessions.length ≤ 10 ∧
    ((saveSession text duration lang newId now userId sessions store
        remoteStore remote).sessions.head?.map
        (fun x => (x.text, x.duration, x.language, x.timestamp))
      = some (text, duration, lang, now)) ∧
    mostRecentFirst (saveSession text duration lang newId now userId
        sessions store remoteStore remote).sessions := by
  have htake : (sessions.take 9).Pairwise
      (fun a b => b.timestamp ≤ a.timestamp) :=
    hsort.sublist (List.take_sublist 9 sessions)
  have hmem : ∀ b ∈ sessions.take 9, b.timestamp ≤ now := fun b hb =>
    hle b (List.mem_of_mem_take hb)
  have hlen : (sessions.take 9).length ≤ 9 := by simp [List.length_take]
  cases remote with
  | success dbId =>
      refine ⟨?_, rfl, ?_⟩
      · simp only [saveSession, List.length_cons]
        omega
      · exact List.pairwise_cons.mpr ⟨hmem, htake⟩
  | failure =>
      refine ⟨?_, rfl, ?_⟩
      · simp only [saveSession, List.length_cons]
        omega
      · exact List.pairwise_cons.mpr ⟨hmem, htake⟩

/-- Witness for C2 at a concrete save over the empty list. -/
theorem saveSession_list_bounded_witness :
    mostRecentFirst [] ∧
    (∀ s ∈ ([] : List TranscriptionSession), s.timestamp ≤ 5) ∧
    ((saveSession "hi" 3 "en" "i" 5 "u" [] emptyStore []
        RemoteOutcome.failure).sessions.length ≤ 10 ∧
     ((saveSession "hi" 3 "en" "i" 5 "u" [] emptyStore []
        RemoteOutcome.failure).sessions.head?.map
        (fun x => (x.text, x.duration, x.language, x.timestamp))
       = some ("hi", 3, "en", 5)) ∧
     mostRecentFirst (saveSession "hi" 3 "en" "i" 5 "u" [] emptyStore []
        RemoteOutcome.failure).sessions) :=
  ⟨List.Pairwise.nil, by simp,
   saveSession_list_bounded "hi" 3 "en" "i" 5 "u" [] emptyStore []
     RemoteOutcome.failure List.Pairwise.nil (by simp)⟩

/-- Claim C3: for a session id present in the in-memory list,
deleteSession removes it from the in-memory list; when the remote delete
succeeds it is also removed from the remote store, and otherwise the
per-user localStorage entry is rewritten to a list in which it is
absent. -/
theorem deleteSession_removes_from_stores (sessionId userId : String)
    (sessions : List TranscriptionSession) (store : LocalStore)
    (remoteStore : List TranscriptionSession) (remoteOk : Bool)
    (hmem : ∃ s ∈ sessions, s.id = sessionId) :
    (∀ s ∈ (deleteSession sessionId userId sessions store remoteStore
        remoteOk).sessions, s.id ≠ sessionId) ∧
    (remoteOk = true → ∀ s ∈ (deleteSession sessionId userId sessions
        store remoteStore remoteOk).remoteStore, s.id ≠ sessionId) ∧
    (remoteOk = false → ∃ l,
      (deleteSession sessionId userId sessions store remoteStore
          remoteOk).store (localStorageKey userId) = some l ∧
      ∀ s ∈ l, s.id ≠ sessionId) := by
  cases remoteOk with
  | true =>
      refine ⟨mem_filter_id_ne sessionId sessions,
        fun _ => mem_filter_id_ne sessionId remoteStore,
        fun hfalse => absurd hfalse (by decide)⟩
  | false =>
      refine ⟨mem_filter_id_ne sessionId sessions,
        fun htrue => absurd htrue (by decide),
        fun _ => ⟨sessions.filter (fun s => s.id != sessionId), ?_,
          mem_filter_id_ne sessionId sessions⟩⟩
      show saveSessionsToLocalStorage userId _ store (localStorageKey userId)
        = some _
      simp [saveSessionsToLocalStorage]

/-- Witness for C3 at a concrete list holding the session to delete, on
the fallback path. -/
theorem deleteSession_removes_from_stores_witness :
    (∃ s ∈ [sessionExample], s.id = "a") ∧
    ((∀ s ∈ (deleteSession "a" "u" [sessionExample] emptyStore []
        false).sessions, s.id ≠ "a") ∧
     (false = true → ∀ s ∈ (deleteSession "a" "u" [sessionExample]
        emptyStore [] false).remoteStore, s.id ≠ "a") ∧
     (false = false → ∃ l,
       (deleteSession "a" "u" [sessionExample] emptyStore [] false).store
           (localStorageKey "u") = some l ∧
       ∀ s ∈ l, s.id ≠ "a")) :=
  ⟨⟨sessionExample, by simp, rfl⟩,
   deleteSession_removes_from_stores "a" "u" [sessionExample] emptyStore
     [] false ⟨sessionExample, by simp, rfl⟩⟩

/-- Claim C6: from the Recording unpaused state, two pauseRecording calls
return to Recording unpaused with the duration tick running and chunk
buffering resumed, while neither call touches the level loop or the
displayed audio level. -/
theorem pauseRecording_twice_round_trip (s : ControllerState)
    (hrec : s.recorderActive = true) (h1 : s.isRecording = true)
    (h2 : s.isPaused = false) :
    (pauseRecording (pauseRecording s)).isRecording = true ∧
    (pauseRecording (pauseRecording s)).isPaused = false ∧
    (pauseRecording (pauseRecording s)).tickRunning = true ∧
    (pauseRecording (pauseRecording s)).recorderPaused = false ∧
    (pauseRecording s).levelMonitoring = s.levelMonitoring ∧
    (pauseRecording (pauseRecording s)).levelMonitoring
      = s.levelMonitoring ∧
    (pauseRecording s).audioLevel = s.audioLevel ∧
    (pauseRecording (pauseRecording s)).audioLevel = s.audioLevel := by
  simp [pauseRecording, hrec, h1, h2]

/-- Witness for C6 at a concrete Recording, unpaused state. -/
theorem pauseRecording_twice_round_trip_witness :
    ctrlExample.recorderActive = true ∧ ctrlExample.isRecording = true ∧
    ctrlExample.isPaused = false ∧
    ((pauseRecording (pauseRecording ctrlExample)).isRecording = true ∧
     (pauseRecording (pauseRecording ctrlExample)).isPaused = false ∧
     (pauseRecording (pauseRecording ctrlExample)).tickRunning = true ∧
     (pauseRecording (pauseRecording ctrlExample)).recorderPaused = false ∧
     (pauseRecording ctrlExample).levelMonitoring
       = ctrlExample.levelMonitoring ∧
     (pauseRecording (pauseRecording ctrlExample)).levelMonitoring
       = ctrlExample.levelMonitoring ∧
     (pauseRecording ctrlExample).audioLevel = ctrlExample.audioLevel ∧
     (pauseRecording (pauseRecording ctrlExample)).audioLevel
       = ctrlExample.audioLevel) :=
  ⟨rfl, rfl, rfl, pauseRecording_twice_round_trip ctrlExample rfl rfl rfl⟩

/-- Claim C7 (counterexample): stopping from a Recording state with five
elapsed seconds leaves the duration counter at 5: the durationSeconds
field is not reset by stopRecording, contradicting the claim that no
field of the previous recording state remains set after stop. -/
theorem stopRecording_duration_counterexample :
    stoppedExample.isRecording = true ∧
    (stopRecording stoppedExample).recordingDuration = 5 ∧
    (5 : Nat) ≠ 0 := by
  refine ⟨rfl, by decide, by decide⟩

/-- Claim C7 (amended): stopRecording resets isRecording, isPaused and
the displayed audio level, and stops the tick and level loop, but leaves
the duration counter unchanged — it is still read by the subsequent
save — and the duration is reset to 0 by the next startRecording. -/
theorem stopRecording_resets_transients (s : ControllerState)
    (hrec : s.recorderActive = true) (h1 : s.isRecording = true) :
    (stopRecording s).isRecording = false ∧
    (stopRecording s).isPaused = false ∧
    (stopRecording s).audioLevel = 0 ∧
    (stopRecording s).tickRunning = false ∧
    (stopRecording s).levelMonitoring = false ∧
    (stopRecording s).recordingDuration = s.recordingDuration ∧
    (∀ t : ControllerState, (startRecording t true).recordingDuration = 0) := by
  simp [stopRecording, startRecording, hrec, h1]

/-- Witness for C7 (amended) at a concrete Recording state. -/
theorem stopRecording_resets_transients_witness :
    stoppedExample.recorderActive = true ∧
    stoppedExample.isRecording = true ∧
    ((stopRecording stoppedExample).isRecording = false ∧
     (stopRecording stoppedExample).isPaused = false ∧
     (stopRecording stoppedExample).audioLevel = 0 ∧
     (stopRecording stoppedExample).tickRunning = false ∧
     (stopRecording stoppedExample).levelMonitoring = false ∧
     (stopRecording stoppedExample).recordingDuration
       = stoppedExample.recordingDuration ∧
     (∀ t : ControllerState,
       (startRecording t true).recordingDuration = 0)) :=
  ⟨rfl, rfl, stopRecording_resets_transients stoppedExample rfl rfl⟩

/-- Claim C5: with buffered chunks present, a successful transcription
stores the returned text, triggers the session save — the new record
carries the captured duration and language and the save toast precedes
the completion toast — and the transcribing flag ends false; on an
encoding or transcription failure only the error toast is appended and
the transcribing flag cleared, with the session list, both stores and the
displayed text unchanged. -/
theorem processRecording_success_and_failure (s : ProcState)
    (text : String) (saveRemote : RemoteOutcome) (newId : String)
    (now : Nat) (userId : String) (h : s.audioChunks ≠ []) :
    ((processRecording s (.success text) saveRemote newId now
        userId).transcriptionText = text ∧
     (processRecording s (.success text) saveRemote newId now
        userId).isTranscribing = false ∧
     ((processRecording s (.success text) saveRemote newId now
        userId).sessions.head?.map
        (fun x => (x.text, x.duration, x.language))
        = some (text, s.recordingDuration, s.selectedLanguage)) ∧
     (processRecording s (.success text) saveRemote newId now
        userId).toasts
       = s.toasts ++ [(saveSession text s.recordingDuration
           s.selectedLanguage newId now userId s.sessions s.store
           s.remoteStore saveRemote).toastMsg,
         "Transcription completed!"]) ∧
    (processRecording s .encodingFailure saveRemote newId now userId
      = { s with
          toasts := s.toasts ++ ["Transcription failed. Please try again."],
          isTranscribing := false }) ∧
    (processRecording s .transcriptionFailure saveRemote newId now userId
      = { s with
          toasts := s.toasts ++ ["Transcription failed. Please try again."],
          isTranscribing := false }) := by
  have h0 : s.audioChunks.isEmpty = false := by simpa using h
  refine ⟨⟨?_, ?_, ?_, ?_⟩, ?_, ?_⟩ <;>
    cases saveRemote <;>
    simp [processRecording, saveSession, h0]

/-- Witness for C5 at a concrete one-chunk state on the fallback save
path. -/
theorem processRecording_success_and_failure_witness :
    procOneExample.audioChunks ≠ [] ∧
    (((processRecording procOneExample (.success "hello")
        RemoteOutcome.failure "i" 9 "u").transcriptionText = "hello" ∧
      (processRecording procOneExample (.success "hello")
        RemoteOutcome.failure "i" 9 "u").isTranscribing = false ∧
      ((processRecording procOneExample (.success "hello")
        RemoteOutcome.failure "i" 9 "u").sessions.head?.map
        (fun x => (x.text, x.duration, x.language))
        = some ("hello", procOneExample.recordingDuration,
            procOneExample.selectedLanguage)) ∧
      (processRecording procOneExample (.success "hello")
        RemoteOutcome.failure "i" 9 "u").toasts
        = procOneExample.toasts ++ [(saveSession "hello"
            procOneExample.recordingDuration
            procOneExample.selectedLanguage "i" 9 "u"
            procOneExample.sessions procOneExample.store
            procOneExample.remoteStore RemoteOutcome.failure).toastMsg,
          "Transcription completed!"]) ∧
     (processRecording procOneExample .encodingFailure
        RemoteOutcome.failure "i" 9 "u"
       = { procOneExample with
           toasts := procOneExample.toasts
             ++ ["Transcription failed. Please try again."],
           isTranscribing := false }) ∧
     (processRecording procOneExample .transcriptionFailure
        RemoteOutcome.failure "i" 9 "u"
       = { procOneExample with
           toasts := procOneExample.toasts
             ++ ["Transcription failed. Please try again."],
           isTranscribing := false })) :=
  ⟨by simp [procOneExample],
   processRecording_success_and_failure procOneExample "hello"
     RemoteOutcome.failure "i" 9 "u" (by simp [procOneExample])⟩

/-- Claim C10: with no buffered chunks, processRecording returns the
state unchanged — no transcription, no save to any store, no toast, and
the transcribing flag untouched. -/
theorem processRecording_empty_chunks_noop (s : ProcState)
    (outcome : TranscribeOutcome) (saveRemote : RemoteOutcome)
    (newId : String) (now : Nat) (userId : String)
    (h : s.audioChunks = []) :
    processRecording s outcome saveRemote newId now userId = s := by
  simp [processRecording, h]

/-- Witness for C10 at a concrete chunkless state. -/
theorem processRecording_empty_chunks_noop_witness :
    procEmptyExample.audioChunks = [] ∧
    processRecording procEmptyExample .encodingFailure
      RemoteOutcome.failure "i" 0 "u" = procEmptyExample :=
  ⟨rfl, processRecording_empty_chunks_noop procEmptyExample
    .encodingFailure RemoteOutcome.failure "i" 0 "u" rfl⟩

end SpeechToText
